import Mathlib

/-!
Verification development for the capture-orchestration core of
`MVP-ai-screen-capture` (`src/src-tauri/src/capture_manager.rs`).

The Rust source is shallowly embedded: pure computations become Lean
functions; the mutex-protected `ManagerState` becomes explicit state
passing; external effects (GStreamer, thread spawning, wall/monotonic
clocks) become an explicit `Env`/`World` pair threaded through the
operations.  Machine integers (`u64`, `usize`, `u128`) are modelled as
`Nat` — the only arithmetic performed on them (`max`, `+1` counters,
division, `* 1000000`) cannot overflow their Rust ranges in any reachable
execution, so no wrap-around modelling is needed; the one lossy cast in
the source (`u32 as i32`) is modelled explicitly by `u32_as_i32`.
-/

namespace ScreenCapture

/-- Rust `std::time::Duration`, modelled as a nanosecond count. -/
structure Duration where
  nanos : Nat
deriving DecidableEq, Repr

/-- Rust `Duration::from_millis`. -/
def Duration.from_millis (ms : Nat) : Duration := ⟨ms * 1000000⟩

/-- Rust `Duration::from_nanos`. -/
def Duration.from_nanos (ns : Nat) : Duration := ⟨ns⟩

/-- Rust `Duration::as_millis`. -/
def Duration.as_millis (d : Duration) : Nat := d.nanos / 1000000

/-- Rust `u32 as i32` (wrapping reinterpretation). -/
def u32_as_i32 (n : Nat) : Int :=
  if n < 2 ^ 31 then (n : Int) else (n : Int) - 2 ^ 32

/-- The `CaptureTarget` from capture_manager.rs. -/
inductive CaptureTarget where
  | FullDisplay
  | Window (id : String)
deriving DecidableEq, Repr

/-- The `CaptureOptions` from capture_manager.rs. -/
structure CaptureOptions where
  chunk_duration_ms : Nat
  capture_mic : Bool
  debug_save : Bool
  target : CaptureTarget
deriving DecidableEq, Repr

/-- The `CaptureOptions::default_chunk_ms`. -/
def CaptureOptions.default_chunk_ms : Nat := 5000

/-- The `impl Default for CaptureOptions`. -/
def CaptureOptions.default : CaptureOptions :=
  { chunk_duration_ms := CaptureOptions.default_chunk_ms
    capture_mic := false
    debug_save := false
    target := CaptureTarget.FullDisplay }

/-- The `CaptureOptions::chunk_duration`:
`Duration::from_millis(self.chunk_duration_ms.max(1000))`. -/
def CaptureOptions.chunk_duration (o : CaptureOptions) : Duration :=
  Duration.from_millis (Nat.max o.chunk_duration_ms 1000)

/-- The `CaptureState` from capture_manager.rs. -/
inductive CaptureState where
  | Idle
  | Starting
  | Running
  | Stopping
deriving DecidableEq, Repr

/-- The `CaptureState::is_active`:
`matches!(self, Starting | Running | Stopping)`. -/
def CaptureState.is_active (s : CaptureState) : Bool :=
  match s with
  | .Starting | .Running | .Stopping => true
  | .Idle => false

/-- Minimal model of `serde_json::Value` — only the shapes the source
builds (`json!` object literals, `json!(null)`, numbers, strings). -/
inductive Json where
  | null
  | bool (b : Bool)
  | num (n : Int)
  | str (s : String)
  | obj (fields : List (String × Json))

/-- Serialize `Option` the way `serde_json` does (`None` ↦ `null`). -/
def Json.ofOptionNat (o : Option Nat) : Json :=
  match o with
  | some n => .num n
  | none => .null

/-- Serialize an optional string field (`None` ↦ `null`). -/
def Json.ofOptionStr (o : Option String) : Json :=
  match o with
  | some s => .str s
  | none => .null

/-- Abstraction of `gstreamer_audio::AudioInfo` (black-box framework
type): the fields the source reads — `rate()`, `channels()`, `format()`,
`bpf()`. -/
structure AudioInfo where
  rate : Nat
  channels : Nat
  format : String
  bpf : Nat
deriving DecidableEq, Repr

/-- Abstraction of `gst::Structure` (`caps.structure(0)`): the fields
the video metadata parse reads; `get::<i32>(..)` may fail, hence
`Option`. -/
structure GstStructure where
  width : Option Int
  height : Option Int
  format : Option String
deriving DecidableEq, Repr

/-- Abstraction of `gst::Caps`: `structure(0)` for the video parse and
`AudioInfo::from_caps` for the audio parse (each may fail). -/
structure GstCaps where
  structure0 : Option GstStructure
  audioInfo : Option AudioInfo
deriving DecidableEq, Repr

/-- Abstraction of `gst::Buffer`: `map_readable()` may fail (hence
`Option` around the bytes) and `pts()` is optional (clock-time nanoseconds). -/
structure GstBuffer where
  bytes : Option (List Nat)
  pts : Option Nat
deriving DecidableEq, Repr

/-- Abstraction of `gst::Sample`: `caps()` and `buffer()` accessors. -/
structure GstSample where
  caps : Option GstCaps
  buffer : Option GstBuffer
deriving DecidableEq, Repr

/-- The `CapturedChunk` from capture_manager.rs. -/
structure CapturedChunk where
  id : Nat
  kind : String
  start_ts_unix_nanos : Nat
  duration_ms : Nat
  metadata : Json
  data_len : Nat
  data : List Nat

/-- The `VideoFrameMetadata` from capture_manager.rs. -/
structure VideoFrameMetadata where
  width : Int
  height : Int
  format : Option String
  pts : Option Duration
deriving DecidableEq, Repr

/-- The `VideoFrameMetadata::from_sample`. -/
def VideoFrameMetadata.from_sample (sample : GstSample) : Option VideoFrameMetadata :=
  match sample.caps with
  | none => none
  | some caps =>
    match caps.structure0 with
    | none => none
    | some st =>
      match st.width with
      | none => none
      | some width =>
        match st.height with
        | none => none
        | some height =>
          let format := st.format
          let pts := (sample.buffer.bind (fun buffer => buffer.pts)).map Duration.from_nanos
          some { width := width, height := height, format := format, pts := pts }

/-- The `AudioFrameMetadata` from capture_manager.rs. -/
structure AudioFrameMetadata where
  rate : Int
  channels : Int
  format : Option String
  frames : Nat
  pts : Option Duration
deriving DecidableEq, Repr

/-- The `AudioFrameMetadata::from_sample`: parse `AudioInfo` from the caps,
map the buffer readable, guard `bpf == 0`, divide byte length by
bytes-per-frame. -/
def AudioFrameMetadata.from_sample (sample : GstSample) : Option AudioFrameMetadata :=
  match sample.caps with
  | none => none
  | some caps =>
    match caps.audioInfo with
    | none => none
    | some info =>
      match sample.buffer with
      | none => none
      | some buffer =>
        match buffer.bytes with
        | none => none
        | some map =>
          let bpf := info.bpf
          if bpf = 0 then
            none
          else
            some { rate := u32_as_i32 info.rate
                   channels := u32_as_i32 info.channels
                   format := some info.format
                   frames := map.length / bpf
                   pts := buffer.pts.map Duration.from_nanos }

/-- The `VideoChunkBuffer` from capture_manager.rs.  `chunk_start` is the
monotonic `Instant` (nanoseconds), `sender` holds the channel generation
of the `mpsc::Sender` clone (or `none`). -/
structure VideoChunkBuffer where
  chunk_duration : Duration
  debug_save : Bool
  chunk_start : Nat
  frames_in_chunk : Nat
  accum : List Nat
  start_ts_unix_nanos : Nat
  id_counter : Nat
  sender : Option Nat
deriving DecidableEq, Repr

/-- The `VideoChunkBuffer::new_with_sender`; `now`/`wall` stand for the
`Instant::now()` / `SystemTime::now()` reads at construction. -/
def VideoChunkBuffer.new_with_sender (chunk_duration : Duration) (debug_save : Bool)
    (sender : Option Nat) (now wall : Nat) : VideoChunkBuffer :=
  { chunk_duration := chunk_duration
    debug_save := debug_save
    chunk_start := now
    frames_in_chunk := 0
    accum := []
    start_ts_unix_nanos := wall
    id_counter := 0
    sender := sender }

/-- The `VideoChunkBuffer::flush`: gather metadata from the triggering
sample, assign the next id, build the chunk (moving the accumulated
bytes out), emit it (send or log — the chunk is returned either way),
reset counters and chunk start. -/
def VideoChunkBuffer.flush (b : VideoChunkBuffer) (sample : GstSample)
    (now wall : Nat) : VideoChunkBuffer × CapturedChunk :=
  let meta := VideoFrameMetadata.from_sample sample
  let id := b.id_counter
  let duration_ms := b.chunk_duration.as_millis
  let metadata :=
    match meta with
    | some m =>
      Json.obj [("width", .num m.width), ("height", .num m.height),
        ("format", Json.ofOptionStr m.format),
        ("pts", Json.ofOptionNat (m.pts.map Duration.as_millis))]
    | none => Json.null
  let chunk : CapturedChunk :=
    { id := id
      kind := "video"
      start_ts_unix_nanos := b.start_ts_unix_nanos
      duration_ms := duration_ms
      metadata := metadata
      data_len := b.accum.length
      data := b.accum }
  ({ b with id_counter := b.id_counter + 1
            frames_in_chunk := 0
            accum := []
            chunk_start := now
            start_ts_unix_nanos := wall }, chunk)

/-- The `VideoChunkBuffer::handle_sample`: append the mapped buffer bytes,
bump the frame counter, flush if the elapsed time since `chunk_start`
reached the chunk duration.  Returns the emitted chunk, if any. -/
def VideoChunkBuffer.handle_sample (b : VideoChunkBuffer) (sample : GstSample)
    (now wall : Nat) : VideoChunkBuffer × Option CapturedChunk :=
  let accum :=
    match sample.buffer with
    | some buffer =>
      match buffer.bytes with
      | some map => b.accum ++ map
      | none => b.accum
    | none => b.accum
  let b := { b with accum := accum, frames_in_chunk := b.frames_in_chunk + 1 }
  if b.chunk_duration.nanos ≤ now - b.chunk_start then
    let (b, c) := b.flush sample now wall
    (b, some c)
  else
    (b, none)

/-- The `AudioChunkBuffer` from capture_manager.rs. -/
structure AudioChunkBuffer where
  label : String
  chunk_duration : Duration
  debug_save : Bool
  chunk_start : Nat
  frames_accumulated : Nat
  last_metadata : Option AudioFrameMetadata
  accum : List Nat
  start_ts_unix_nanos : Nat
  id_counter : Nat
  sender : Option Nat
deriving DecidableEq, Repr

/-- The `AudioChunkBuffer::new_with_sender`. -/
def AudioChunkBuffer.new_with_sender (label : String) (chunk_duration : Duration)
    (debug_save : Bool) (sender : Option Nat) (now wall : Nat) : AudioChunkBuffer :=
  { label := label
    chunk_duration := chunk_duration
    debug_save := debug_save
    chunk_start := now
    frames_accumulated := 0
    last_metadata := none
    accum := []
    start_ts_unix_nanos := wall
    id_counter := 0
    sender := sender }

/-- The `AudioChunkBuffer::flush`: assign the next id, serialize
`last_metadata.take()` (or `null`), build the chunk, emit it, reset. -/
def AudioChunkBuffer.flush (b : AudioChunkBuffer) (now wall : Nat) :
    AudioChunkBuffer × CapturedChunk :=
  let id := b.id_counter
  let duration_ms := b.chunk_duration.as_millis
  let metadata :=
    match b.last_metadata with
    | some meta =>
      Json.obj [("rate", .num meta.rate), ("channels", .num meta.channels),
        ("format", Json.ofOptionStr meta.format),
        ("frames", .num meta.frames),
        ("pts_ms", Json.ofOptionNat (meta.pts.map Duration.as_millis))]
    | none => Json.null
  let chunk : CapturedChunk :=
    { id := id
      kind := b.label
      start_ts_unix_nanos := b.start_ts_unix_nanos
      duration_ms := duration_ms
      metadata := metadata
      data_len := b.accum.length
      data := b.accum }
  ({ b with id_counter := b.id_counter + 1
            last_metadata := none
            frames_accumulated := 0
            accum := []
            chunk_start := now
            start_ts_unix_nanos := wall }, chunk)

/-- The `AudioChunkBuffer::handle_sample`: append mapped bytes; on a
successful metadata parse add the decoded frame count and record the
metadata; flush when the window has elapsed. -/
def AudioChunkBuffer.handle_sample (b : AudioChunkBuffer) (sample : GstSample)
    (now wall : Nat) : AudioChunkBuffer × Option CapturedChunk :=
  let accum :=
    match sample.buffer with
    | some buffer =>
      match buffer.bytes with
      | some map => b.accum ++ map
      | none => b.accum
    | none => b.accum
  let b :=
    match AudioFrameMetadata.from_sample sample with
    | some meta =>
      { b with accum := accum
               frames_accumulated := b.frames_accumulated + meta.frames
               last_metadata := some meta }
    | none => { b with accum := accum }
  if b.chunk_duration.nanos ≤ now - b.chunk_start then
    let (b, c) := b.flush now wall
    (b, some c)
  else
    (b, none)

/-- One sample-delivery event: the sample plus the monotonic and
wall-clock readings at delivery time. -/
structure DeliveryEvent where
  sample : GstSample
  now : Nat
  wall : Nat

/-- Run a video chunk buffer over a sequence of deliveries, collecting
every emitted chunk in emission order. -/
def VideoChunkBuffer.run : VideoChunkBuffer → List DeliveryEvent →
    VideoChunkBuffer × List CapturedChunk
  | b, [] => (b, [])
  | b, ev :: evs =>
    let step1 := b.handle_sample ev.sample ev.now ev.wall
    let rest := step1.1.run evs
    (rest.1, step1.2.toList ++ rest.2)

/-- Run an audio chunk buffer over a sequence of deliveries. -/
def AudioChunkBuffer.run : AudioChunkBuffer → List DeliveryEvent →
    AudioChunkBuffer × List CapturedChunk
  | b, [] => (b, [])
  | b, ev :: evs =>
    let step1 := b.handle_sample ev.sample ev.now ev.wall
    let rest := step1.1.run evs
    (rest.1, step1.2.toList ++ rest.2)

/-- Error values surfaced by the manager, mirroring the `anyhow!` /
`missing_element` messages in capture_manager.rs. -/
inductive CaptureError where
  | alreadyActive
  | gstInitError
  | spawnError
  | missingElement (name : String)
  | pipelineStartError (label : String)
  | captureActive
deriving DecidableEq, Repr

/-- A `gst::Pipeline` handle abstracted to its state: `playing = true`
after a successful `set_state(Playing)`, `false` in the inert `Null`
state (the state a freshly constructed pipeline is in). -/
structure PipeHandle where
  playing : Bool
deriving DecidableEq, Repr

/-- The `VideoPipelineHandles` from capture_manager.rs. -/
structure VideoPipelineHandles where
  pipeline : PipeHandle
  chunk_buffer : VideoChunkBuffer
deriving DecidableEq, Repr

/-- The `AudioPipelineHandles` from capture_manager.rs. -/
structure AudioPipelineHandles where
  pipeline : PipeHandle
  chunk_buffer : AudioChunkBuffer
deriving DecidableEq, Repr

/-- The `ManagerState` from capture_manager.rs (the mutex-protected inner
state).  `chunk_sender` holds the channel generation of the stored
`mpsc::Sender`, or `none`. -/
structure ManagerState where
  status : CaptureState
  options : CaptureOptions
  video_pipeline : Option PipeHandle
  video_chunk_buffer : Option VideoChunkBuffer
  system_audio_pipeline : Option PipeHandle
  system_audio_chunk_buffer : Option AudioChunkBuffer
  mic_pipeline : Option PipeHandle
  mic_chunk_buffer : Option AudioChunkBuffer
  chunk_sender : Option Nat
deriving DecidableEq, Repr

/-- The `impl Default for ManagerState`. -/
def ManagerState.default : ManagerState :=
  { status := CaptureState.Idle
    options := CaptureOptions.default
    video_pipeline := none
    video_chunk_buffer := none
    system_audio_pipeline := none
    system_audio_chunk_buffer := none
    mic_pipeline := none
    mic_chunk_buffer := none
    chunk_sender := none }

/-- State of the world outside the manager mutex: the `GSTREAMER`
once-cell, the number of chunk-consumer threads ever spawned, the number
of `gst::Pipeline`s currently in the `Playing` state, and a fresh-name
source for mpsc channels. -/
structure World where
  gstInit : Bool
  consumerSpawns : Nat
  playing : Nat
  channelGen : Nat
deriving DecidableEq, Repr

/-- The world at process start. -/
def World.init : World :=
  { gstInit := false, consumerSpawns := 0, playing := 0, channelGen := 0 }

/-- Outcomes of the external (black-box) operations a single
`start_capture` call performs, in program order: `gst::init`, consumer
thread spawn, the three pipeline constructions (`none` = success,
`some e` = the error the build surfaced), and the three
`set_state(Playing)` calls.  `now`/`wall` are the clock readings used
when constructing chunk buffers. -/
structure Env where
  gstInitOk : Bool
  spawnOk : Bool
  buildVideoErr : Option CaptureError
  buildSystemAudioErr : Option CaptureError
  buildMicErr : Option CaptureError
  startVideoOk : Bool
  startSystemAudioOk : Bool
  startMicOk : Bool
  now : Nat
  wall : Nat
deriving DecidableEq, Repr

/-- The `ensure_gstreamer_initialized`: a `OnceCell` that caches success and
retries after failure. -/
def ensure_gstreamer_init (env : Env) (w : World) : World × Except CaptureError Unit :=
  if w.gstInit then (w, .ok ())
  else if env.gstInitOk then ({ w with gstInit := true }, .ok ())
  else (w, .error .gstInitError)

/-- The `CaptureManager::start_pipeline`: `set_state(Playing)`, surfacing a
labelled error on failure. -/
def start_pipeline (ok : Bool) (w : World) (p : PipeHandle) (label : String) :
    World × PipeHandle × Except CaptureError Unit :=
  if ok then ({ w with playing := w.playing + 1 }, { p with playing := true }, .ok ())
  else (w, p, .error (.pipelineStartError label))

/-- The `pipeline.set_state(gst::State::Null)`: a playing pipeline stops
playing; on an inert pipeline this is a no-op. -/
def set_state_null (w : World) (p : PipeHandle) : World × PipeHandle :=
  if p.playing then ({ w with playing := w.playing - 1 }, { p with playing := false })
  else (w, p)

/-- The `CaptureManager::teardown_pipeline`: best-effort `set_state(Null)`
on an optionally present pipeline; errors swallowed. -/
def teardown_pipeline (p : Option PipeHandle) (w : World) : World :=
  match p with
  | some p => (set_state_null w p).1
  | none => w

/-- The `CaptureManager::build_video_pipeline`: element construction and
linking abstracted to the environment's outcome; on success the handle
pairs an inert pipeline with a fresh `VideoChunkBuffer` holding the
given sender clone. -/
def build_video_pipeline (env : Env) (options : CaptureOptions) (sender : Option Nat) :
    Except CaptureError VideoPipelineHandles :=
  match env.buildVideoErr with
  | some e => .error e
  | none =>
    .ok { pipeline := { playing := false }
          chunk_buffer := VideoChunkBuffer.new_with_sender options.chunk_duration
            options.debug_save sender env.now env.wall }

/-- The `CaptureManager::build_pulse_audio_pipeline` specialised by
`build_system_audio_pipeline` / `build_mic_audio_pipeline`: outcome from
the environment; on success an inert pipeline plus a fresh
`AudioChunkBuffer` labelled with the stream kind. -/
def build_audio_pipeline (buildErr : Option CaptureError) (label : String)
    (env : Env) (options : CaptureOptions) (sender : Option Nat) :
    Except CaptureError AudioPipelineHandles :=
  match buildErr with
  | some e => .error e
  | none =>
    .ok { pipeline := { playing := false }
          chunk_buffer := AudioChunkBuffer.new_with_sender label options.chunk_duration
            options.debug_save sender env.now env.wall }

/-- The `CaptureManager::configure_pipelines`: spawn the consumer thread,
build video / system-audio / (optionally) mic pipelines, start them in
that order with explicit rollback (`set_state(Null)`) of every
already-started pipeline on an activation failure, and only on full
success store the handles and the channel sender into the manager
state. -/
def configure_pipelines (env : Env) (options : CaptureOptions)
    (s : ManagerState) (w : World) : ManagerState × World × Except CaptureError Unit :=
  if env.spawnOk then
    let gen := w.channelGen
    let w := { w with channelGen := w.channelGen + 1
                      consumerSpawns := w.consumerSpawns + 1 }
    match build_video_pipeline env options (some gen) with
    | .error e => (s, w, .error e)
    | .ok video_handles =>
      match build_audio_pipeline env.buildSystemAudioErr "system_audio" env options (some gen) with
      | .error e => (s, w, .error e)
      | .ok system_audio_handles =>
        match (if options.capture_mic then
                 (build_audio_pipeline env.buildMicErr "mic" env options (some gen)).map some
               else .ok none) with
        | .error e => (s, w, .error e)
        | .ok mic_handles =>
          let (w, vp, rv) := start_pipeline env.startVideoOk w video_handles.pipeline "video"
          match rv with
          | .error e =>
            let (w, _) := set_state_null w vp
            (s, w, .error e)
          | .ok _ =>
            let (w, sp, rs) := start_pipeline env.startSystemAudioOk w
              system_audio_handles.pipeline "system_audio"
            match rs with
            | .error e =>
              let (w, _) := set_state_null w vp
              let (w, _) := set_state_null w sp
              (s, w, .error e)
            | .ok _ =>
              match mic_handles with
              | some handles =>
                let (w, mp, rm) := start_pipeline env.startMicOk w handles.pipeline "mic"
                match rm with
                | .error e =>
                  let (w, _) := set_state_null w vp
                  let (w, _) := set_state_null w sp
                  let (w, _) := set_state_null w mp
                  (s, w, .error e)
                | .ok _ =>
                  ({ s with video_pipeline := some vp
                            video_chunk_buffer := some video_handles.chunk_buffer
                            system_audio_pipeline := some sp
                            system_audio_chunk_buffer := some system_audio_handles.chunk_buffer
                            mic_pipeline := some mp
                            mic_chunk_buffer := some handles.chunk_buffer
                            chunk_sender := some gen }, w, .ok ())
              | none =>
                ({ s with video_pipeline := some vp
                          video_chunk_buffer := some video_handles.chunk_buffer
                          system_audio_pipeline := some sp
                          system_audio_chunk_buffer := some system_audio_handles.chunk_buffer
                          mic_pipeline := none
                          mic_chunk_buffer := none
                          chunk_sender := some gen }, w, .ok ())
  else (s, w, .error .spawnError)

/-- The `CaptureManager::start_capture`: ensure GStreamer, atomically check
`is_active` and transition to `Starting` while storing the new options,
run `configure_pipelines`, and on failure revert only the status to
`Idle`, surfacing the error. -/
def start_capture (env : Env) (options : CaptureOptions)
    (s : ManagerState) (w : World) : ManagerState × World × Except CaptureError Unit :=
  match ensure_gstreamer_init env w with
  | (w, .error e) => (s, w, .error e)
  | (w, .ok _) =>
    if s.status.is_active then (s, w, .error .alreadyActive)
    else
      let s := { s with status := CaptureState.Starting, options := options }
      let (s, w, r) := configure_pipelines env options s w
      match r with
      | .error e => ({ s with status := CaptureState.Idle }, w, .error e)
      | .ok _ => ({ s with status := CaptureState.Running }, w, .ok ())

/-- The `CaptureManager::stop_capture`: no-op when not active; otherwise
transition to `Stopping`, tear down (take and `Null`) all three
pipelines, clear the chunk-buffer references, transition to `Idle`.
Note: the source never clears `chunk_sender` here — the model is
faithful to that. -/
def stop_capture (s : ManagerState) (w : World) :
    ManagerState × World × Except CaptureError Unit :=
  if s.status.is_active then
    let s := { s with status := CaptureState.Stopping }
    let w := teardown_pipeline s.video_pipeline w
    let w := teardown_pipeline s.system_audio_pipeline w
    let w := teardown_pipeline s.mic_pipeline w
    let s := { s with video_pipeline := none
                      system_audio_pipeline := none
                      mic_pipeline := none
                      video_chunk_buffer := none
                      system_audio_chunk_buffer := none
                      mic_chunk_buffer := none
                      status := CaptureState.Idle }
    (s, w, .ok ())
  else (s, w, .ok ())

/-- The `CaptureManager::set_options`: reject while active, otherwise
replace the stored options. -/
def set_options (options : CaptureOptions) (s : ManagerState) :
    ManagerState × Except CaptureError Unit :=
  if s.status.is_active then (s, .error .captureActive)
  else ({ s with options := options }, .ok ())

/-- One external call into the manager. -/
inductive Op where
  | start (env : Env) (options : CaptureOptions)
  | stop
  | setOptions (options : CaptureOptions)

/-- Effect of one call on manager state and world. -/
def stepOp (op : Op) (sw : ManagerState × World) : ManagerState × World :=
  match op with
  | .start env options =>
    let r := start_capture env options sw.1 sw.2
    (r.1, r.2.1)
  | .stop =>
    let r := stop_capture sw.1 sw.2
    (r.1, r.2.1)
  | .setOptions options => ((set_options options sw.1).1, sw.2)

/-- Run a call sequence from a given state. -/
def exec (ops : List Op) (sw : ManagerState × World) : ManagerState × World :=
  ops.foldl (fun sw op => stepOp op sw) sw

/-- States reachable from the process-start state via manager calls. -/
inductive Reachable : ManagerState × World → Prop where
  | init : Reachable (ManagerState.default, World.init)
  | step (op : Op) {sw : ManagerState × World} :
      Reachable sw → Reachable (stepOp op sw)

/-- No pipeline or chunk-buffer reference is stored in the manager. -/
def pipeFieldsNone (s : ManagerState) : Prop :=
  s.video_pipeline = none ∧ s.system_audio_pipeline = none ∧ s.mic_pipeline = none
    ∧ s.video_chunk_buffer = none ∧ s.system_audio_chunk_buffer = none
    ∧ s.mic_chunk_buffer = none

/-- The first failure `configure_pipelines` would encounter for a given
environment and options, in the program order of its fallible steps
(consumer spawn, the three builds, the three activations); `none` means
the whole configuration succeeds. -/
def configFirstFailure (env : Env) (options : CaptureOptions) : Option CaptureError :=
  if env.spawnOk then
    match env.buildVideoErr with
    | some e => some e
    | none =>
      match env.buildSystemAudioErr with
      | some e => some e
      | none =>
        match (if options.capture_mic then env.buildMicErr else none) with
        | some e => some e
        | none =>
          if env.startVideoOk then
            if env.startSystemAudioOk then
              if options.capture_mic ∧ ¬ env.startMicOk then
                some (.pipelineStartError "mic")
              else none
            else some (.pipelineStartError "system_audio")
          else some (.pipelineStartError "video")
  else some .spawnError

/-! Helper lemmas about chunk buffers. -/

/-- One video delivery either emits no chunk and leaves `id_counter`
unchanged, or emits exactly the chunk carrying the current `id_counter`
and bumps the counter by one. -/
lemma video_handle_ids (b : VideoChunkBuffer) (sample : GstSample) (now wall : Nat) :
    (b.handle_sample sample now wall).2.toList.map CapturedChunk.id
        = List.range' b.id_counter (b.handle_sample sample now wall).2.toList.length
    ∧ (b.handle_sample sample now wall).1.id_counter
        = b.id_counter + (b.handle_sample sample now wall).2.toList.length := by
  unfold VideoChunkBuffer.handle_sample VideoChunkBuffer.flush
  dsimp only
  split
  · simp [List.range'_succ]
  · simp

/-- Audio analogue of `video_handle_ids`. -/
lemma audio_handle_ids (b : AudioChunkBuffer) (sample : GstSample) (now wall : Nat) :
    (b.handle_sample sample now wall).2.toList.map CapturedChunk.id
        = List.range' b.id_counter (b.handle_sample sample now wall).2.toList.length
    ∧ (b.handle_sample sample now wall).1.id_counter
        = b.id_counter + (b.handle_sample sample now wall).2.toList.length := by
  unfold AudioChunkBuffer.handle_sample AudioChunkBuffer.flush
  dsimp only
  split <;> (rename_i hmeta) <;> dsimp only <;> split <;> simp [List.range'_succ]

/-- Over any delivery sequence, a video buffer emits chunk ids
`id_counter, id_counter+1, ...` consecutively. -/
lemma video_run_ids (evs : List DeliveryEvent) (b : VideoChunkBuffer) :
    (b.run evs).2.map CapturedChunk.id = List.range' b.id_counter (b.run evs).2.length := by
  induction evs generalizing b with
  | nil => simp [VideoChunkBuffer.run]
  | cons ev evs ih =>
    show ((b.handle_sample ev.sample ev.now ev.wall).2.toList
        ++ ((b.handle_sample ev.sample ev.now ev.wall).1.run evs).2).map CapturedChunk.id
      = List.range' b.id_counter ((b.handle_sample ev.sample ev.now ev.wall).2.toList
        ++ ((b.handle_sample ev.sample ev.now ev.wall).1.run evs).2).length
    obtain ⟨h1, h2⟩ := video_handle_ids b ev.sample ev.now ev.wall
    rw [List.map_append, h1, ih, h2, List.length_append, List.range'_append_1]
    congr 1
    omega

/-- Audio analogue of `video_run_ids`. -/
lemma audio_run_ids (evs : List DeliveryEvent) (b : AudioChunkBuffer) :
    (b.run evs).2.map CapturedChunk.id = List.range' b.id_counter (b.run evs).2.length := by
  induction evs generalizing b with
  | nil => simp [AudioChunkBuffer.run]
  | cons ev evs ih =>
    show ((b.handle_sample ev.sample ev.now ev.wall).2.toList
        ++ ((b.handle_sample ev.sample ev.now ev.wall).1.run evs).2).map CapturedChunk.id
      = List.range' b.id_counter ((b.handle_sample ev.sample ev.now ev.wall).2.toList
        ++ ((b.handle_sample ev.sample ev.now ev.wall).1.run evs).2).length
    obtain ⟨h1, h2⟩ := audio_handle_ids b ev.sample ev.now ev.wall
    rw [List.map_append, h1, ih, h2, List.length_append, List.range'_append_1]
    congr 1
    omega

/-! Claim theorems about the chunk buffers and options. -/

/-- C6: for every chunk buffer (video or audio) started from
`new_with_sender`, the ids of the chunks emitted over any delivery
sequence are exactly `0, 1, 2, ...` in emission order — the first
flushed chunk has id 0, each later flush emits an id one larger than
the previous, so ids strictly increase and are never reused. -/
theorem chunk_ids_consecutive_from_zero :
    (∀ (d : Duration) (dbg : Bool) (snd : Option Nat) (now wall : Nat)
        (evs : List DeliveryEvent),
        ((VideoChunkBuffer.new_with_sender d dbg snd now wall).run evs).2.map CapturedChunk.id
          = List.range (((VideoChunkBuffer.new_with_sender d dbg snd now wall).run evs).2.length))
    ∧ (∀ (label : String) (d : Duration) (dbg : Bool) (snd : Option Nat) (now wall : Nat)
        (evs : List DeliveryEvent),
        ((AudioChunkBuffer.new_with_sender label d dbg snd now wall).run evs).2.map CapturedChunk.id
          = List.range (((AudioChunkBuffer.new_with_sender label d dbg snd now wall).run evs).2.length)) := by
  constructor
  · intro d dbg snd now wall evs
    rw [video_run_ids, List.range_eq_range']
    rfl
  · intro label d dbg snd now wall evs
    rw [audio_run_ids, List.range_eq_range']
    rfl

/-- C7: a flush whose window saw no successfully parsed sample metadata
still emits a chunk (flush always produces one; it is never
suppressed), with `null` metadata, the correct stream kind, and
`data_len` equal to the number of accumulated bytes (possibly zero). -/
theorem flush_without_metadata_emits :
    (∀ (b : VideoChunkBuffer) (sample : GstSample) (now wall : Nat),
      VideoFrameMetadata.from_sample sample = none →
        (b.flush sample now wall).2.metadata = Json.null
          ∧ (b.flush sample now wall).2.kind = "video"
          ∧ (b.flush sample now wall).2.data_len = b.accum.length)
    ∧ (∀ (b : AudioChunkBuffer) (now wall : Nat),
      b.last_metadata = none →
        (b.flush now wall).2.metadata = Json.null
          ∧ (b.flush now wall).2.kind = b.label
          ∧ (b.flush now wall).2.data_len = b.accum.length) := by
  constructor
  · intro b sample now wall h
    simp [VideoChunkBuffer.flush, h]
  · intro b now wall h
    simp [AudioChunkBuffer.flush, h]

/-- Shared fixture: a sample with no caps and no buffer. -/
def emptySample : GstSample := { caps := none, buffer := none }

/-- Shared fixture: a fresh video chunk buffer with a 1-second window. -/
def vbuf0 : VideoChunkBuffer :=
  VideoChunkBuffer.new_with_sender (Duration.from_millis 1000) false none 0 0

/-- Shared fixture: a fresh system-audio chunk buffer with a 1-second window. -/
def abuf0 : AudioChunkBuffer :=
  AudioChunkBuffer.new_with_sender "system_audio" (Duration.from_millis 1000) false none 0 0

/-- Witness for C7 at a concrete empty sample and fresh buffers. -/
theorem flush_without_metadata_emits_witness :
    (VideoFrameMetadata.from_sample emptySample = none
      ∧ (vbuf0.flush emptySample 5 5).2.metadata = Json.null
      ∧ (vbuf0.flush emptySample 5 5).2.kind = "video"
      ∧ (vbuf0.flush emptySample 5 5).2.data_len = vbuf0.accum.length)
    ∧ (abuf0.last_metadata = none
      ∧ (abuf0.flush 5 5).2.metadata = Json.null
      ∧ (abuf0.flush 5 5).2.kind = abuf0.label
      ∧ (abuf0.flush 5 5).2.data_len = abuf0.accum.length) := by
  refine ⟨⟨rfl, ?_⟩, ⟨rfl, ?_⟩⟩
  · exact flush_without_metadata_emits.1 vbuf0 emptySample 5 5 rfl
  · exact flush_without_metadata_emits.2 abuf0 5 5 rfl

/-- C8: on an audio delivery carrying parseable caps and a readable
buffer, the accumulated frame count grows by byte length divided by the
format's bytes-per-frame; if bytes-per-frame is zero the parse yields
no metadata, the frame counter is unchanged, and `last_metadata` is
unchanged (no division is attempted).  The window is assumed not to
have elapsed, so the flush reset does not mask the accumulation. -/
theorem audio_bpf_zero_guard (b : AudioChunkBuffer) (c : GstCaps) (info : AudioInfo)
    (buf : GstBuffer) (bs : List Nat) (sample : GstSample) (now wall : Nat)
    (hs : sample = { caps := some c, buffer := some buf })
    (hinfo : c.audioInfo = some info) (hbytes : buf.bytes = some bs)
    (hnoflush : now - b.chunk_start < b.chunk_duration.nanos) :
    (info.bpf = 0 →
        AudioFrameMetadata.from_sample sample = none
        ∧ (b.handle_sample sample now wall).1.frames_accumulated = b.frames_accumulated
        ∧ (b.handle_sample sample now wall).1.last_metadata = b.last_metadata)
    ∧ (info.bpf ≠ 0 →
        (b.handle_sample sample now wall).1.frames_accumulated
          = b.frames_accumulated + bs.length / info.bpf) := by
  subst hs
  have hns := Nat.not_le.mpr hnoflush
  constructor
  · intro hbpf
    have hmeta : AudioFrameMetadata.from_sample
        { caps := some c, buffer := some buf } = none := by
      simp [AudioFrameMetadata.from_sample, hinfo, hbytes, hbpf]
    refine ⟨hmeta, ?_, ?_⟩ <;>
      simp [AudioChunkBuffer.handle_sample, hmeta, hns]
  · intro hbpf
    have hmeta : AudioFrameMetadata.from_sample
        { caps := some c, buffer := some buf }
        = some { rate := u32_as_i32 info.rate
                 channels := u32_as_i32 info.channels
                 format := some info.format
                 frames := bs.length / info.bpf
                 pts := buf.pts.map Duration.from_nanos } := by
      simp [AudioFrameMetadata.from_sample, hinfo, hbytes, hbpf]
    simp [AudioChunkBuffer.handle_sample, hmeta, hns]

/-- Shared fixture: caps carrying a zero-bytes-per-frame audio format. -/
def zeroBpfCaps : GstCaps :=
  { structure0 := none
    audioInfo := some { rate := 48000, channels := 2, format := "F32LE", bpf := 0 } }

/-- Shared fixture: caps carrying the normalised F32LE stereo format
(8 bytes per frame). -/
def f32leCaps : GstCaps :=
  { structure0 := none
    audioInfo := some { rate := 48000, channels := 2, format := "F32LE", bpf := 8 } }

/-- Shared fixture: a readable 16-byte buffer. -/
def buf16 : GstBuffer :=
  { bytes := some [0, 1, 2, 3, 4, 5, 6, 7, 8, 9, 10, 11, 12, 13, 14, 15], pts := some 0 }

/-- Witness for C8: with bpf = 0 the counter stays at 0; with bpf = 8 a
16-byte delivery adds 2 frames. -/
theorem audio_bpf_zero_guard_witness :
    (AudioFrameMetadata.from_sample { caps := some zeroBpfCaps, buffer := some buf16 } = none
      ∧ (abuf0.handle_sample { caps := some zeroBpfCaps, buffer := some buf16 } 5 5).1.frames_accumulated
          = abuf0.frames_accumulated
      ∧ (abuf0.handle_sample { caps := some zeroBpfCaps, buffer := some buf16 } 5 5).1.last_metadata
          = abuf0.last_metadata)
    ∧ (abuf0.handle_sample { caps := some f32leCaps, buffer := some buf16 } 5 5).1.frames_accumulated
        = abuf0.frames_accumulated + 2 := by
  constructor
  · exact (audio_bpf_zero_guard abuf0 zeroBpfCaps _ buf16
      buf16.bytes.get! _ 5 5 rfl rfl rfl (by decide)).1 rfl
  · have h := (audio_bpf_zero_guard abuf0 f32leCaps
      { rate := 48000, channels := 2, format := "F32LE", bpf := 8 } buf16
      [0, 1, 2, 3, 4, 5, 6, 7, 8, 9, 10, 11, 12, 13, 14, 15] _ 5 5 rfl rfl rfl
      (by decide)).2 (by decide)
    simpa using h

/-- C9: the effective chunk duration is `max(chunk_duration_ms, 1000)`
milliseconds — values below 1000 clamp up to 1000, values at or above
1000 pass through — and defaulted options carry 5000 ms. -/
theorem chunk_duration_clamped (o : CaptureOptions) :
    o.chunk_duration = Duration.from_millis (Nat.max o.chunk_duration_ms 1000)
    ∧ (o.chunk_duration_ms < 1000 → o.chunk_duration = Duration.from_millis 1000)
    ∧ (1000 ≤ o.chunk_duration_ms → o.chunk_duration = Duration.from_millis o.chunk_duration_ms)
    ∧ CaptureOptions.default.chunk_duration_ms = 5000
    ∧ CaptureOptions.default.chunk_duration = Duration.from_millis 5000 := by
  refine ⟨rfl, ?_, ?_, rfl, rfl⟩
  · intro h
    have hm : Nat.max o.chunk_duration_ms 1000 = 1000 := by
      rw [Nat.max_eq_max]
      exact Nat.max_eq_right (Nat.le_of_lt h)
    show Duration.from_millis (Nat.max o.chunk_duration_ms 1000) = Duration.from_millis 1000
    rw [hm]
  · intro h
    have hm : Nat.max o.chunk_duration_ms 1000 = o.chunk_duration_ms := by
      rw [Nat.max_eq_max]
      exact Nat.max_eq_left h
    show Duration.from_millis (Nat.max o.chunk_duration_ms 1000)
      = Duration.from_millis o.chunk_duration_ms
    rw [hm]

/-- Witness for C9 at 250 ms (clamped to 1000) and 2000 ms (passed
through). -/
theorem chunk_duration_clamped_witness :
    ({ CaptureOptions.default with chunk_duration_ms := 250 } : CaptureOptions).chunk_duration
        = Duration.from_millis 1000
    ∧ ({ CaptureOptions.default with chunk_duration_ms := 2000 } : CaptureOptions).chunk_duration
        = Duration.from_millis 2000 :=
  ⟨(chunk_duration_clamped _).2.1 (by decide),
   (chunk_duration_clamped _).2.2.1 (by decide)⟩

/-! Helper lemmas about the manager state machine. -/

/-- The `is_active` is false exactly in the `Idle` state. -/
lemma is_active_false_iff (st : CaptureState) :
    st.is_active = false ↔ st = CaptureState.Idle := by
  cases st <;> simp [CaptureState.is_active]

/-- A successful `ensure_gstreamer_init` leaves the once-cell set. -/
lemma ensure_ok_gstInit (env : Env) (w : World)
    (h : (ensure_gstreamer_init env w).2 = .ok ()) :
    (ensure_gstreamer_init env w).1.gstInit = true := by
  unfold ensure_gstreamer_init at *
  by_cases hg : w.gstInit
  · simp [hg]
  · by_cases he : env.gstInitOk
    · simp [hg, he]
    · simp [hg, he] at h

/-- On the first configuration failure, `configure_pipelines` returns
the manager state untouched, leaves no pipeline of the attempt playing,
does not touch the GStreamer cell, spawns the consumer thread iff the
spawn step itself succeeded, and surfaces exactly the first error. -/
lemma configure_fail (env : Env) (options : CaptureOptions) (s : ManagerState)
    (w : World) (e : CaptureError)
    (hfail : configFirstFailure env options = some e) :
    (configure_pipelines env options s w).1 = s
    ∧ (configure_pipelines env options s w).2.1.playing = w.playing
    ∧ (configure_pipelines env options s w).2.1.gstInit = w.gstInit
    ∧ (configure_pipelines env options s w).2.2 = .error e
    ∧ (env.spawnOk = true →
        (configure_pipelines env options s w).2.1.consumerSpawns = w.consumerSpawns + 1)
    ∧ (env.spawnOk = false →
        (configure_pipelines env options s w).2.1.consumerSpawns = w.consumerSpawns) := by
  unfold configure_pipelines
  unfold configFirstFailure at hfail
  cases hsp : env.spawnOk <;>
    cases hv : env.buildVideoErr <;>
      cases hsa : env.buildSystemAudioErr <;>
        cases hm : env.buildMicErr <;>
          cases hmic : options.capture_mic <;>
            cases hstv : env.startVideoOk <;>
              cases hsts : env.startSystemAudioOk <;>
                cases hstm : env.startMicOk <;>
                  simp_all [build_video_pipeline, build_audio_pipeline, start_pipeline,
                    set_state_null, Except.map]

/-- On a fully successful configuration, `configure_pipelines` stores
started (playing) video and system-audio pipelines, a mic pipeline iff
requested, their chunk buffers, and the fresh channel sender; exactly
one consumer thread is spawned and the playing-pipeline count grows by
the number of pipelines started. -/
lemma configure_ok (env : Env) (options : CaptureOptions) (s : ManagerState)
    (w : World) (hok : configFirstFailure env options = none) :
    (configure_pipelines env options s w).2.2 = .ok ()
    ∧ (configure_pipelines env options s w).1.status = s.status
    ∧ (configure_pipelines env options s w).1.options = s.options
    ∧ (configure_pipelines env options s w).1.video_pipeline = some { playing := true }
    ∧ (configure_pipelines env options s w).1.system_audio_pipeline = some { playing := true }
    ∧ (configure_pipelines env options s w).1.mic_pipeline
        = (if options.capture_mic then some { playing := true } else none)
    ∧ (configure_pipelines env options s w).1.chunk_sender = some w.channelGen
    ∧ (configure_pipelines env options s w).2.1.playing
        = w.playing + 2 + (if options.capture_mic then 1 else 0)
    ∧ (configure_pipelines env options s w).2.1.gstInit = w.gstInit
    ∧ (configure_pipelines env options s w).2.1.consumerSpawns = w.consumerSpawns + 1 := by
  unfold configure_pipelines
  unfold configFirstFailure at hok
  cases hsp : env.spawnOk <;>
    cases hv : env.buildVideoErr <;>
      cases hsa : env.buildSystemAudioErr <;>
        cases hm : env.buildMicErr <;>
          cases hmic : options.capture_mic <;>
            cases hstv : env.startVideoOk <;>
              cases hsts : env.startSystemAudioOk <;>
                cases hstm : env.startMicOk <;>
                  simp_all [build_video_pipeline, build_audio_pipeline, start_pipeline,
                    set_state_null, Except.map]

/-- The `start_capture` when the GStreamer cell is already set and the
manager is active: the session-conflict error, with state and world
untouched. -/
lemma start_capture_active (env : Env) (options : CaptureOptions) (s : ManagerState)
    (w : World) (hact : s.status.is_active = true) (hgst : w.gstInit = true) :
    start_capture env options s w = (s, w, .error .alreadyActive) := by
  unfold start_capture ensure_gstreamer_init
  simp [hgst, hact]

/-- A workable `ensure_gstreamer_init` leaves the cell set and reports
success. -/
lemma ensure_gst_ok (env : Env) (w : World)
    (hgst : w.gstInit = true ∨ env.gstInitOk = true) :
    ensure_gstreamer_init env w = ({ w with gstInit := true }, .ok ()) := by
  unfold ensure_gstreamer_init
  by_cases hg : w.gstInit = true
  · have : ({ w with gstInit := true } : World) = w := by
      cases w
      simp_all
    rw [this]
    simp [hg]
  · rcases hgst with h | h
    · exact absurd h hg
    · simp [hg, h]

/-- The `start_capture` from `Idle` when configuration fails: options are
replaced, status reverts to `Idle`, all other manager fields are
untouched, the playing count is preserved, and the first configuration
error is surfaced. -/
lemma start_capture_idle_fail (env : Env) (options : CaptureOptions) (s : ManagerState)
    (w : World) (e : CaptureError) (hidle : s.status = CaptureState.Idle)
    (hgst : w.gstInit = true ∨ env.gstInitOk = true)
    (hfail : configFirstFailure env options = some e) :
    (start_capture env options s w).1
        = { s with options := options, status := CaptureState.Idle }
    ∧ (start_capture env options s w).2.1.playing = w.playing
    ∧ (start_capture env options s w).2.2 = .error e
    ∧ (env.spawnOk = true →
        (start_capture env options s w).2.1.consumerSpawns = w.consumerSpawns + 1) := by
  unfold start_capture
  rw [ensure_gst_ok env w hgst]
  obtain ⟨k1, k2, _, k4, k5, _⟩ := configure_fail env options
    { s with status := CaptureState.Starting, options := options }
    { w with gstInit := true } e hfail
  rcases hc : configure_pipelines env options
      { s with status := CaptureState.Starting, options := options }
      { w with gstInit := true } with ⟨s2, w2, r2⟩
  rw [hc] at k1 k2 k4 k5
  dsimp only at k1 k2 k4 k5 ⊢
  rw [hidle]
  simp only [CaptureState.is_active, Bool.false_eq_true, if_false, hc]
  rw [k4]
  dsimp only
  subst k1
  exact ⟨rfl, k2, rfl, k5⟩

/-- The `start_capture` from `Idle` when configuration fully succeeds:
status becomes `Running`, the new options are stored, started pipelines
and the fresh sender are stored, the playing count grows by the number
of pipelines, and exactly one consumer thread is spawned. -/
lemma start_capture_idle_ok (env : Env) (options : CaptureOptions) (s : ManagerState)
    (w : World) (hidle : s.status = CaptureState.Idle)
    (hgst : w.gstInit = true ∨ env.gstInitOk = true)
    (hok : configFirstFailure env options = none) :
    (start_capture env options s w).2.2 = .ok ()
    ∧ (start_capture env options s w).1.status = CaptureState.Running
    ∧ (start_capture env options s w).1.options = options
    ∧ (start_capture env options s w).1.video_pipeline = some { playing := true }
    ∧ (start_capture env options s w).1.system_audio_pipeline = some { playing := true }
    ∧ (start_capture env options s w).1.mic_pipeline
        = (if options.capture_mic then some { playing := true } else none)
    ∧ (start_capture env options s w).1.chunk_sender = some w.channelGen
    ∧ (start_capture env options s w).2.1.playing
        = w.playing + 2 + (if options.capture_mic then 1 else 0)
    ∧ (start_capture env options s w).2.1.gstInit = true
    ∧ (start_capture env options s w).2.1.consumerSpawns = w.consumerSpawns + 1 := by
  unfold start_capture
  rw [ensure_gst_ok env w hgst]
  obtain ⟨k1, k2, k3, k4, k5, k6, k7, k8, k9, k10⟩ := configure_ok env options
    { s with status := CaptureState.Starting, options := options }
    { w with gstInit := true } hok
  rcases hc : configure_pipelines env options
      { s with status := CaptureState.Starting, options := options }
      { w with gstInit := true } with ⟨s2, w2, r2⟩
  rw [hc] at k1 k2 k3 k4 k5 k6 k7 k8 k9 k10
  dsimp only at k1 k2 k3 k4 k5 k6 k7 k8 k9 k10 ⊢
  rw [hidle]
  simp only [CaptureState.is_active, Bool.false_eq_true, if_false, hc]
  rw [k1]
  dsimp only
  exact ⟨rfl, rfl, k3, k4, k5, k6, k7, k8, k9, k10⟩

/-- Invariant maintained by every manager call: between calls the
status is `Idle` or `Running`; in `Idle` no pipeline or chunk-buffer
reference is stored and no pipeline is playing; while active the
GStreamer cell is set; in `Running` the stored pipelines exist, are
playing, and account for the whole playing count. -/
def Inv (sw : ManagerState × World) : Prop :=
  (sw.1.status = CaptureState.Idle ∨ sw.1.status = CaptureState.Running)
  ∧ (sw.1.status = CaptureState.Idle → pipeFieldsNone sw.1 ∧ sw.2.playing = 0)
  ∧ (sw.1.status.is_active = true → sw.2.gstInit = true)
  ∧ (sw.1.status = CaptureState.Running →
      sw.1.video_pipeline = some { playing := true }
      ∧ sw.1.system_audio_pipeline = some { playing := true }
      ∧ (∀ p, sw.1.mic_pipeline = some p → p = { playing := true })
      ∧ sw.2.playing = 2 + (if sw.1.mic_pipeline.isSome then 1 else 0))

/-- The initial state satisfies the invariant. -/
lemma inv_init : Inv (ManagerState.default, World.init) := by
  refine ⟨Or.inl rfl, fun _ => ⟨⟨rfl, rfl, rfl, rfl, rfl, rfl⟩, rfl⟩, ?_, ?_⟩
  · intro h
    simp [ManagerState.default, CaptureState.is_active] at h
  · intro h
    simp [ManagerState.default] at h

/-- Every manager call preserves the invariant. -/
lemma inv_step (op : Op) (sw : ManagerState × World) (h : Inv sw) : Inv (stepOp op sw) := by
  obtain ⟨hstatus, hidleinv, hgstinv, hruninv⟩ := h
  rcases sw with ⟨s, w⟩
  cases op with
  | setOptions options =>
    dsimp [stepOp, set_options]
    by_cases hact : s.status.is_active = true
    · simp only [hact, if_true]
      exact ⟨hstatus, hidleinv, hgstinv, hruninv⟩
    · simp only [Bool.not_eq_true] at hact
      have hidle := (is_active_false_iff s.status).mp hact
      simp only [hact, Bool.false_eq_true, if_false]
      refine ⟨Or.inl hidle, ?_, ?_, ?_⟩
      · intro _
        exact hidleinv hidle
      · intro hcontra
        dsimp only at hcontra
        rw [hact] at hcontra
        exact absurd hcontra (by simp)
      · intro hrun
        dsimp only at hrun
        rw [hidle] at hrun
        exact absurd hrun (by simp)
  | stop =>
    dsimp [stepOp, stop_capture]
    by_cases hact : s.status.is_active = true
    · have hrun : s.status = CaptureState.Running := by
        rcases hstatus with hi | hr
        · rw [hi] at hact
          simp [CaptureState.is_active] at hact
        · exact hr
      obtain ⟨hv, hsa, hm, hp⟩ := hruninv hrun
      simp only [hact, if_true]
      refine ⟨Or.inl rfl, ?_, ?_, ?_⟩
      · intro _
        refine ⟨⟨rfl, rfl, rfl, rfl, rfl, rfl⟩, ?_⟩
        rw [hv, hsa]
        cases hmp : s.mic_pipeline with
        | none =>
          rw [hmp] at hp
          simp only [Option.isSome_none, Bool.false_eq_true, if_false] at hp
          simp [teardown_pipeline, set_state_null, hp]
        | some p =>
          have hpeq := hm p hmp
          subst hpeq
          rw [hmp] at hp
          simp only [Option.isSome_some, if_true] at hp
          simp [teardown_pipeline, set_state_null, hp]
      · intro hcontra
        simp [CaptureState.is_active] at hcontra
      · intro hcontra
        exact absurd hcontra (by simp)
    · simp only [Bool.not_eq_true] at hact
      simp only [hact, Bool.false_eq_true, if_false]
      refine ⟨hstatus, hidleinv, ?_, hruninv⟩
      intro hcontra
      dsimp only at hcontra
      rw [hact] at hcontra
      exact absurd hcontra (by simp)
  | start env options =>
    by_cases hact : s.status.is_active = true
    · have hgst := hgstinv hact
      dsimp only [stepOp]
      rw [start_capture_active env options s w hact hgst]
      exact ⟨hstatus, hidleinv, hgstinv, hruninv⟩
    · simp only [Bool.not_eq_true] at hact
      have hidle := (is_active_false_iff s.status).mp hact
      by_cases hgok : w.gstInit = true ∨ env.gstInitOk = true
      · cases hfail : configFirstFailure env options with
        | some e =>
          obtain ⟨k1, k2, _, _⟩ :=
            start_capture_idle_fail env options s w e hidle hgok hfail
          dsimp only [stepOp]
          rw [k1]
          obtain ⟨hf, hp⟩ := hidleinv hidle
          obtain ⟨f1, f2, f3, f4, f5, f6⟩ := hf
          refine ⟨Or.inl rfl, ?_, ?_, ?_⟩
          · intro _
            rw [k2, hp]
            exact ⟨⟨f1, f2, f3, f4, f5, f6⟩, rfl⟩
          · intro hcontra
            simp [CaptureState.is_active] at hcontra
          · intro hcontra
            exact absurd hcontra (by simp)
        | none =>
          obtain ⟨k1, k2, k3, k4, k5, k6, k7, k8, k9, k10⟩ :=
            start_capture_idle_ok env options s w hidle hgok hfail
          dsimp only [stepOp]
          obtain ⟨_, hp⟩ := hidleinv hidle
          refine ⟨Or.inr k2, ?_, ?_, ?_⟩
          · intro hcontra
            rw [k2] at hcontra
            exact absurd hcontra (by simp)
          · intro _
            exact k9
          · intro _
            refine ⟨k4, k5, ?_, ?_⟩
            · intro p hmp
              rw [k6] at hmp
              by_cases hmic : options.capture_mic = true
              · rw [hmic] at hmp
                simp at hmp
                rw [hmp]
              · simp only [hmic, Bool.false_eq_true, if_false] at hmp
                exact absurd hmp (by simp)
            · rw [k6, k8, hp]
              by_cases hmic : options.capture_mic = true <;> simp [hmic]
      · push_neg at hgok
        obtain ⟨hg1, hg2⟩ := hgok
        simp only [Bool.not_eq_true] at hg1 hg2
        dsimp only [stepOp]
        unfold start_capture ensure_gstreamer_init
        simp only [hg1, hg2, Bool.false_eq_true, if_false]
        exact ⟨hstatus, hidleinv, hgstinv, hruninv⟩

/-- Every reachable state satisfies the invariant. -/
lemma reachable_inv {sw : ManagerState × World} (h : Reachable sw) : Inv sw := by
  induction h with
  | init => exact inv_init
  | step op _ ih => exact inv_step op _ ih

/-! Claim theorems about the manager state machine. -/

/-- Shared fixture: an environment in which every external step succeeds. -/
def envOk : Env :=
  { gstInitOk := true, spawnOk := true, buildVideoErr := none, buildSystemAudioErr := none,
    buildMicErr := none, startVideoOk := true, startSystemAudioOk := true, startMicOk := true,
    now := 0, wall := 0 }

/-- Shared fixture: system-audio activation (the second started pipeline)
fails. -/
def envSysFail : Env := { envOk with startSystemAudioOk := false }

/-- Shared fixture: the state after one successful start from process
start. -/
def sw1 : ManagerState × World :=
  stepOp (Op.start envOk CaptureOptions.default) (ManagerState.default, World.init)

/-- C1: a start that fails during pipeline construction or activation
surfaces exactly the first error encountered, reverts the status to
`Idle`, stores no pipeline or chunk-buffer reference in the manager,
and leaves zero pipelines playing (every pipeline of the attempt is
torn down; pipelines that were never started remain in the inert `Null`
state throughout). -/
theorem start_failure_rolls_back (env : Env) (options : CaptureOptions)
    (s : ManagerState) (w : World) (e : CaptureError)
    (hreach : Reachable (s, w)) (hidle : s.status = CaptureState.Idle)
    (hgst : w.gstInit = true ∨ env.gstInitOk = true)
    (hfail : configFirstFailure env options = some e) :
    (start_capture env options s w).2.2 = Except.error e
    ∧ (start_capture env options s w).1.status = CaptureState.Idle
    ∧ pipeFieldsNone (start_capture env options s w).1
    ∧ (start_capture env options s w).2.1.playing = 0 := by
  obtain ⟨k1, k2, k3, _⟩ := start_capture_idle_fail env options s w e hidle hgst hfail
  obtain ⟨_, hidleinv, _, _⟩ := reachable_inv hreach
  obtain ⟨⟨f1, f2, f3, f4, f5, f6⟩, hp⟩ := hidleinv hidle
  refine ⟨k3, ?_, ?_, ?_⟩
  · rw [k1]
  · rw [k1]
    exact ⟨f1, f2, f3, f4, f5, f6⟩
  · rw [k2, hp]

/-- Witness for C1: from the initial state, a start whose system-audio
pipeline (the second of the attempt) refuses to activate rolls
everything back. -/
theorem start_failure_rolls_back_witness :
    (ManagerState.default.status = CaptureState.Idle
      ∧ (World.init.gstInit = true ∨ envSysFail.gstInitOk = true)
      ∧ configFirstFailure envSysFail CaptureOptions.default
          = some (CaptureError.pipelineStartError "system_audio"))
    ∧ ((start_capture envSysFail CaptureOptions.default ManagerState.default World.init).2.2
        = Except.error (CaptureError.pipelineStartError "system_audio")
      ∧ (start_capture envSysFail CaptureOptions.default ManagerState.default World.init).1.status
          = CaptureState.Idle
      ∧ pipeFieldsNone
          (start_capture envSysFail CaptureOptions.default ManagerState.default World.init).1
      ∧ (start_capture envSysFail CaptureOptions.default ManagerState.default
          World.init).2.1.playing = 0) := by
  refine ⟨⟨rfl, Or.inr rfl, rfl⟩, ?_⟩
  exact start_failure_rolls_back envSysFail CaptureOptions.default ManagerState.default
    World.init (CaptureError.pipelineStartError "system_audio")
    Reachable.init rfl (Or.inr rfl) rfl

/-- C2: calling start while the manager is active (any reachable
non-`Idle` state) returns the `AlreadyActive` error and leaves the
manager state and the outside world — pipelines, consumer count,
channel — entirely unchanged; in the model the check and the
(non-)transition form one atomic step, mirroring the single lock scope
in the source. -/
theorem start_while_active_rejected (env : Env) (options : CaptureOptions)
    (s : ManagerState) (w : World) (hreach : Reachable (s, w))
    (hact : s.status.is_active = true) :
    start_capture env options s w = (s, w, Except.error CaptureError.alreadyActive) := by
  obtain ⟨_, _, hgstinv, _⟩ := reachable_inv hreach
  exact start_capture_active env options s w hact (hgstinv hact)

/-- Witness for C2: a second start right after a successful one is
rejected without touching anything. -/
theorem start_while_active_rejected_witness :
    sw1.1.status.is_active = true
    ∧ start_capture envOk CaptureOptions.default sw1.1 sw1.2
        = (sw1.1, sw1.2, Except.error CaptureError.alreadyActive) := by
  refine ⟨by decide, ?_⟩
  exact start_while_active_rejected envOk CaptureOptions.default sw1.1 sw1.2
    (Reachable.step (Op.start envOk CaptureOptions.default) Reachable.init) (by decide)

/-- C3 (divergence): `stop_capture` never clears the stored channel
sender — for every manager state the sender survives stop, so after a
stop the consumer loop still has a live sender and cannot observe
disconnection; concretely, stopping the running session `sw1` ends
`Idle` yet still holds channel sender 0. -/
theorem stop_never_drops_sender :
    (∀ (s : ManagerState) (w : World), (stop_capture s w).1.chunk_sender = s.chunk_sender)
    ∧ sw1.1.status = CaptureState.Running
    ∧ sw1.1.chunk_sender = some 0
    ∧ (stop_capture sw1.1 sw1.2).1.status = CaptureState.Idle
    ∧ (stop_capture sw1.1 sw1.2).1.chunk_sender = some 0 := by
  refine ⟨?_, by decide, by decide, by decide, by decide⟩
  intro s w
  unfold stop_capture
  by_cases hact : s.status.is_active = true <;> simp [hact]

/-- C4: stop always succeeds, always leaves the manager `Idle`, and is
a complete no-op (state, world and result) when the manager is already
`Idle`. -/
theorem stop_idempotent_infallible (s : ManagerState) (w : World) :
    (stop_capture s w).2.2 = Except.ok ()
    ∧ (stop_capture s w).1.status = CaptureState.Idle
    ∧ (s.status = CaptureState.Idle → stop_capture s w = (s, w, Except.ok ())) := by
  unfold stop_capture
  by_cases hact : s.status.is_active = true
  · rw [if_pos hact]
    refine ⟨rfl, rfl, ?_⟩
    intro hidle
    rw [hidle] at hact
    simp [CaptureState.is_active] at hact
  · rw [if_neg hact]
    have hact' : s.status.is_active = false := by simpa using hact
    have hidle := (is_active_false_iff s.status).mp hact'
    exact ⟨rfl, hidle, fun _ => rfl⟩

/-- Witness for C4: stopping the fresh `Idle` manager is a no-op. -/
theorem stop_idempotent_infallible_witness :
    ManagerState.default.status = CaptureState.Idle
    ∧ stop_capture ManagerState.default World.init
        = (ManagerState.default, World.init, Except.ok ()) :=
  ⟨rfl, (stop_idempotent_infallible ManagerState.default World.init).2.2 rfl⟩

/-- C5 counterexample: two start/stop cycles spawn two consumer
threads, refuting "exactly one consumer task per process lifetime". -/
theorem consumer_per_process_counterexample :
    (exec [Op.start envOk CaptureOptions.default, Op.stop,
           Op.start envOk CaptureOptions.default, Op.stop]
        (ManagerState.default, World.init)).2.consumerSpawns = 2
    ∧ (2 : Nat) ≠ 1 := by
  exact ⟨by decide, by decide⟩

/-- C5 amended: the consumer task is spawned exactly once per start
attempt that passes the idle check (the spawn precedes pipeline
construction, so this includes attempts whose configuration later
fails) — one consumer task per start attempt over the process lifetime,
not one per process. -/
theorem consumer_spawned_once_per_start (env : Env) (options : CaptureOptions)
    (s : ManagerState) (w : World)
    (hidle : s.status = CaptureState.Idle)
    (hgst : w.gstInit = true ∨ env.gstInitOk = true)
    (hspawn : env.spawnOk = true) :
    (start_capture env options s w).2.1.consumerSpawns = w.consumerSpawns + 1 := by
  cases hfail : configFirstFailure env options with
  | some e =>
    exact (start_capture_idle_fail env options s w e hidle hgst hfail).2.2.2 hspawn
  | none =>
    exact (start_capture_idle_ok env options s w hidle hgst hfail).2.2.2.2.2.2.2.2.2

/-- Witness for C5 (amended) at the initial state. -/
theorem consumer_spawned_once_per_start_witness :
    (ManagerState.default.status = CaptureState.Idle
      ∧ (World.init.gstInit = true ∨ envOk.gstInitOk = true)
      ∧ envOk.spawnOk = true)
    ∧ (start_capture envOk CaptureOptions.default ManagerState.default
        World.init).2.1.consumerSpawns = World.init.consumerSpawns + 1 := by
  refine ⟨⟨rfl, Or.inr rfl, rfl⟩, ?_⟩
  exact consumer_spawned_once_per_start envOk CaptureOptions.default ManagerState.default
    World.init rfl (Or.inr rfl) rfl

/-- C10: a start that fails during configuration is not atomic with
respect to the stored options — the new options are stored before
construction and only the status is reverted on failure, so afterwards
the stored options equal the failed start's options while every other
field is untouched. -/
theorem failed_start_keeps_new_options (env : Env) (options : CaptureOptions)
    (s : ManagerState) (w : World) (e : CaptureError)
    (hidle : s.status = CaptureState.Idle)
    (hgst : w.gstInit = true ∨ env.gstInitOk = true)
    (hfail : configFirstFailure env options = some e) :
    (start_capture env options s w).1.options = options
    ∧ (start_capture env options s w).1.status = CaptureState.Idle
    ∧ (start_capture env options s w).2.2 = Except.error e
    ∧ (start_capture env options s w).1.video_pipeline = s.video_pipeline
    ∧ (start_capture env options s w).1.system_audio_pipeline = s.system_audio_pipeline
    ∧ (start_capture env options s w).1.mic_pipeline = s.mic_pipeline
    ∧ (start_capture env options s w).1.video_chunk_buffer = s.video_chunk_buffer
    ∧ (start_capture env options s w).1.system_audio_chunk_buffer
        = s.system_audio_chunk_buffer
    ∧ (start_capture env options s w).1.mic_chunk_buffer = s.mic_chunk_buffer
    ∧ (start_capture env options s w).1.chunk_sender = s.chunk_sender := by
  obtain ⟨k1, _, k3, _⟩ := start_capture_idle_fail env options s w e hidle hgst hfail
  rw [k1]
  exact ⟨rfl, rfl, k3, rfl, rfl, rfl, rfl, rfl, rfl, rfl⟩

/-- Shared fixture: options requesting the mic stream. -/
def optsMic : CaptureOptions := { CaptureOptions.default with capture_mic := true }

/-- Shared fixture: the mic pipeline build reports a missing element. -/
def envMicFail : Env := { envOk with buildMicErr := some (CaptureError.missingElement "pulsesrc") }

/-- Witness for C10: a failed mic-requesting start leaves the new
(mic-enabled) options stored even though the previous options differed. -/
theorem failed_start_keeps_new_options_witness :
    (ManagerState.default.options = CaptureOptions.default
      ∧ CaptureOptions.default ≠ optsMic
      ∧ configFirstFailure envMicFail optsMic
          = some (CaptureError.missingElement "pulsesrc"))
    ∧ (start_capture envMicFail optsMic ManagerState.default World.init).1.options = optsMic
    ∧ (start_capture envMicFail optsMic ManagerState.default World.init).1.chunk_sender
        = ManagerState.default.chunk_sender := by
  refine ⟨⟨rfl, by decide, rfl⟩, ?_, ?_⟩
  · exact (failed_start_keeps_new_options envMicFail optsMic ManagerState.default World.init
      (CaptureError.missingElement "pulsesrc") rfl (Or.inr rfl) rfl).1
  · exact (failed_start_keeps_new_options envMicFail optsMic ManagerState.default World.init
      (CaptureError.missingElement "pulsesrc") rfl (Or.inr rfl) rfl).2.2.2.2.2.2.2.2.2

end ScreenCapture
